import Mathlib

/-!
Shallow embedding of the GeodesicMapper projection-transition and interaction
engine (src/main.js) over the real numbers, together with theorems settling
the behavioral claims about it.  JavaScript numbers are modelled as real
numbers; the d3 Mercator raw projection used by the viewport solver is
modelled by its standard formula y = log (tan (pi/4 + phi/2)) with the d3
scale-and-translate pipeline x = tx + k * x_raw, y = ty - k * y_raw.
-/

namespace GeodesicMapper

open Real

/-! ## Constants from src/main.js -/

/-- FRICTION = 0.95, inertia decay factor per tick (src/main.js line 52). -/
def FRICTION : ℝ := 0.95

/-- MIN_VELOCITY = 0.01, the velocity floor below which inertia stops (line 53). -/
def MIN_VELOCITY : ℝ := 0.01

/-- Southern Mercator latitude bound (MERCATOR_LATITUDE_BOUNDS.MIN, line 96). -/
def MERCATOR_LATITUDE_BOUNDS_MIN : ℝ := -83

/-- Northern Mercator latitude bound (MERCATOR_LATITUDE_BOUNDS.MAX, line 97). -/
def MERCATOR_LATITUDE_BOUNDS_MAX : ℝ := 86

/-- Drag sensitivity constant (src/main.js line 491). -/
def SENSITIVITY : ℝ := 0.25

/-- HEMISPHERE_VIEW_THRESHOLD = 0.5 (src/main.js line 237). -/
def HEMISPHERE_VIEW_THRESHOLD : ℝ := 0.5

/-! ## Projection blend (createProjectionInterpolator, lines 63-78)

The core of createProjectionInterpolator is the raw point mapping handed to
d3.geoProjectionMutator: for a blend factor it returns the pointwise linear
interpolation of the two raw projections in output plane coordinates. -/

/-- The blended raw projection built by createProjectionInterpolator:
given the start and end raw projections and the transition progress, maps
(longitude, latitude) to the componentwise interpolation of the two outputs. -/
def createProjectionInterpolator (startProjection endProjection : ℝ → ℝ → ℝ × ℝ)
    (transitionProgress : ℝ) (longitude latitude : ℝ) : ℝ × ℝ :=
  let p0 := startProjection longitude latitude
  let p1 := endProjection longitude latitude
  (p0.1 + transitionProgress * (p1.1 - p0.1),
   p0.2 + transitionProgress * (p1.2 - p0.2))

/-! ## Clip-angle schedules of renderProjectionFrame (lines 237-258) -/

/-- Clip angle applied to the boundary polygons layer (lines 238-243): while
the transition progress is at most the hemisphere threshold the angle is
90 + (t * 2) * 10; afterwards clipAngle(null) disables angular clipping,
an effective clip angle of 180 degrees. -/
noncomputable def boundaryPolygonClipAngle (transitionProgress : ℝ) : ℝ :=
  if transitionProgress ≤ HEMISPHERE_VIEW_THRESHOLD then
    90 + transitionProgress * 2 * 10
  else 180

/-- Clip angle applied to the grid, sphere outline and line layers
(lines 255-258): 90 + (t * 2) * 90 while t is at most the threshold, 180
afterwards. -/
noncomputable def cartographicElementsClipAngle (transitionProgress : ℝ) : ℝ :=
  if transitionProgress ≤ HEMISPHERE_VIEW_THRESHOLD then
    90 + transitionProgress * 2 * 90
  else 180

/-! ## Transition state machine (animateProjectionTransition / toggleProjectionType,
lines 294-347) -/

/-- PROJECTION_STATE enum (lines 35-38). -/
inductive ProjectionState where
  | orthographic
  | mercator
deriving DecidableEq, Repr

/-- The state relevant to starting a transition: the transitioning flag, the
persistent current projection state, the target captured by the in-flight
transition closure (none when idle), and the toggle button disabled flag. -/
structure TransitionEngine where
  isProjectionTransitioning : Bool
  currentProjectionState : ProjectionState
  transitionTarget : Option ProjectionState
  toggleButtonDisabled : Bool
deriving DecidableEq, Repr

/-- animateProjectionTransition (lines 294-298): returns unchanged if a
transition is already in flight, otherwise marks a transition as in flight
toward the requested target and disables the toggle button. -/
def animateProjectionTransition (s : TransitionEngine)
    (targetProjectionState : ProjectionState) : TransitionEngine :=
  if s.isProjectionTransitioning then s
  else
    { s with
      isProjectionTransitioning := true
      toggleButtonDisabled := true
      transitionTarget := some targetProjectionState }

/-- toggleProjectionType (lines 339-347): returns unchanged if transitioning,
otherwise requests a transition toward the opposite projection state. -/
def toggleProjectionType (s : TransitionEngine) : TransitionEngine :=
  if s.isProjectionTransitioning then s
  else
    animateProjectionTransition s
      (if s.currentProjectionState = ProjectionState.orthographic then
        ProjectionState.mercator
      else ProjectionState.orthographic)

/-! ## Mercator viewport solver (calculateMercatorViewportParameters,
lines 106-135)

d3.geoMercator converts degree inputs to radians, applies the raw Mercator
map phi to log (tan (pi/4 + phi/2)), and then the scale-and-translate
pipeline x = tx + k * lambda, y = ty - k * y_raw. -/

/-- Degrees to radians. -/
noncomputable def degToRad (d : ℝ) : ℝ := d * π / 180

/-- The raw Mercator y coordinate of a latitude given in radians
(d3.geoMercatorRaw). -/
noncomputable def mercatorRawY (phi : ℝ) : ℝ := Real.log (Real.tan (π / 4 + phi / 2))

/-- The projected canvas y of a latitude (degrees) under a d3 Mercator
projection with scale k and translation y component ty. -/
noncomputable def mercatorProjectedY (k ty latDeg : ℝ) : ℝ :=
  ty - k * mercatorRawY (degToRad latDeg)

/-- The rectangle stored in mercatorViewportClipping. -/
structure ClipRect where
  x : ℝ
  y : ℝ
  width : ℝ
  height : ℝ

/-- The three outputs of the viewport solver. -/
structure MercatorViewport where
  mercatorScale : ℝ
  mercatorTranslation : ℝ × ℝ
  mercatorViewportClipping : ClipRect

/-- calculateMercatorViewportParameters (lines 106-135): derives the flat-mode
scale, translation and the viewport clip rectangle from the canvas size.
The temporary projection is first given translation (w/2, h/2) to measure
the boundary latitudes, then the final translation. -/
noncomputable def calculateMercatorViewportParameters (canvasWidth canvasHeight : ℝ) :
    MercatorViewport :=
  let mercatorScale := min canvasWidth canvasHeight / (2 * π)
  let northernBoundaryY :=
    mercatorProjectedY mercatorScale (canvasHeight / 2) MERCATOR_LATITUDE_BOUNDS_MAX
  let southernBoundaryY :=
    mercatorProjectedY mercatorScale (canvasHeight / 2) MERCATOR_LATITUDE_BOUNDS_MIN
  let viewportHeight := southernBoundaryY - northernBoundaryY
  let verticalCenteringOffset :=
    canvasHeight / 2 - (northernBoundaryY + viewportHeight / 2)
  let mercatorTranslation :=
    (canvasWidth / 2, verticalCenteringOffset + canvasHeight / 2)
  { mercatorScale := mercatorScale
    mercatorTranslation := mercatorTranslation
    mercatorViewportClipping :=
      { x := 0
        y := min canvasWidth
          (mercatorProjectedY mercatorScale mercatorTranslation.2
            MERCATOR_LATITUDE_BOUNDS_MAX)
        width := canvasWidth
        height :=
          mercatorProjectedY mercatorScale mercatorTranslation.2
              MERCATOR_LATITUDE_BOUNDS_MIN -
            mercatorProjectedY mercatorScale mercatorTranslation.2
              MERCATOR_LATITUDE_BOUNDS_MAX } }

/-! ## Canvas resize handler (handleCanvasResize, lines 137-174) -/

/-- The module-level state read and written by handleCanvasResize. -/
structure CanvasState where
  canvasWidth : ℝ
  canvasHeight : ℝ
  initialCanvasWidth : ℝ
  initialCanvasHeight : ℝ
  orthographicScale : ℝ
  mercatorViewport : Option MercatorViewport
  zoomInitialized : Bool
  currentZoomTransformK : ℝ
  currentProjectionState : ProjectionState
  isProjectionTransitioning : Bool

open Classical in
/-- handleCanvasResize (lines 137-174): snapshots the first observed canvas
size into initialCanvasSize, and when the canvas dimensions actually changed
re-derives the orthographic scale (from the initial canvas size), the
Mercator viewport parameters (from the new canvas size), and resets the zoom
transform to identity when the zoom behavior has been initialized. -/
noncomputable def handleCanvasResize (s : CanvasState)
    (newCanvasWidth newCanvasHeight : ℝ) : CanvasState :=
  let s1 :=
    if s.initialCanvasWidth = 0 then
      { s with
        initialCanvasWidth := newCanvasWidth
        initialCanvasHeight := newCanvasHeight }
    else s
  if s1.canvasWidth = newCanvasWidth ∧ s1.canvasHeight = newCanvasHeight then s1
  else
    { s1 with
      canvasWidth := newCanvasWidth
      canvasHeight := newCanvasHeight
      orthographicScale :=
        min s1.initialCanvasWidth s1.initialCanvasHeight / 2 - 10
      mercatorViewport :=
        some (calculateMercatorViewportParameters newCanvasWidth newCanvasHeight)
      currentZoomTransformK :=
        if s1.zoomInitialized then 1 else s1.currentZoomTransformK }

/-! ## Theorems for claims C1, C2, C3 -/

/-- C1: for every blend factor t in [0,1] and every geographic point, the
blended projection produced by createProjectionInterpolator maps
(longitude, latitude) to exactly P0 + t * (P1 - P0) componentwise in planar
output coordinates; at t = 0 it equals the start projection output exactly
and at t = 1 it equals the end projection output exactly. -/
theorem blend_is_output_space_linear_interpolation
    (P0 P1 : ℝ → ℝ → ℝ × ℝ) (t lon lat : ℝ) (ht0 : 0 ≤ t) (ht1 : t ≤ 1) :
    createProjectionInterpolator P0 P1 t lon lat =
      ((P0 lon lat).1 + t * ((P1 lon lat).1 - (P0 lon lat).1),
       (P0 lon lat).2 + t * ((P1 lon lat).2 - (P0 lon lat).2)) ∧
    createProjectionInterpolator P0 P1 0 lon lat = P0 lon lat ∧
    createProjectionInterpolator P0 P1 1 lon lat = P1 lon lat := by
  refine ⟨rfl, ?_, ?_⟩
  · simp [createProjectionInterpolator]
  · simp [createProjectionInterpolator]

/-- Witness for C1 at concrete projections and t = 1/2. -/
theorem blend_is_output_space_linear_interpolation_witness :
    (0 : ℝ) ≤ 1/2 ∧ (1/2 : ℝ) ≤ 1 ∧
    (createProjectionInterpolator (fun a b => (a, b)) (fun a b => (2*a, 3*b))
        (1/2) 4 6 =
      (((fun (a b : ℝ) => (a, b)) 4 6).1 +
        1/2 * (((fun (a b : ℝ) => (2*a, 3*b)) 4 6).1 -
          ((fun (a b : ℝ) => (a, b)) 4 6).1),
       ((fun (a b : ℝ) => (a, b)) 4 6).2 +
        1/2 * (((fun (a b : ℝ) => (2*a, 3*b)) 4 6).2 -
          ((fun (a b : ℝ) => (a, b)) 4 6).2)) ∧
     createProjectionInterpolator (fun a b => (a, b)) (fun a b => (2*a, 3*b))
        0 4 6 = (fun (a b : ℝ) => (a, b)) 4 6 ∧
     createProjectionInterpolator (fun a b => (a, b)) (fun a b => (2*a, 3*b))
        1 4 6 = (fun (a b : ℝ) => (2*a, 3*b)) 4 6) :=
  ⟨by norm_num, by norm_num,
    blend_is_output_space_linear_interpolation
      (fun a b => (a, b)) (fun a b => (2*a, 3*b)) (1/2) 4 6
      (by norm_num) (by norm_num)⟩

/-- C2 counterexample: the boundary-polygon clip-angle schedule is not
continuous at t = 0.5: at t = 0.5 (the end of the globe-dominant regime,
where the schedule is affine, so this is also its left limit) the angle is
100 degrees, while just above 0.5 angular clipping is disabled (180
degrees). -/
theorem polygon_clip_angle_discontinuous_at_half :
    boundaryPolygonClipAngle (1/2) = 100 ∧
    boundaryPolygonClipAngle (51/100) = 180 ∧
    (100 : ℝ) ≠ 180 := by
  refine ⟨?_, ?_, by norm_num⟩
  · rw [boundaryPolygonClipAngle, if_pos (by norm_num [HEMISPHERE_VIEW_THRESHOLD])]
    norm_num
  · rw [boundaryPolygonClipAngle, if_neg (by norm_num [HEMISPHERE_VIEW_THRESHOLD])]

/-- C2 amended: during the globe-dominant half both clip-angle schedules are
monotone non-decreasing in t; the grid/outline/line schedule is continuous
with the flat-dominant regime at t = 0.5 (it reaches 180 degrees exactly,
the value used for every t above 0.5); the boundary-polygon schedule instead
jumps from 100 degrees at t = 0.5 to the disabled value 180 degrees above
0.5. -/
theorem clip_angle_schedules_monotone_and_midpoint_behavior
    (t1 t2 : ℝ) (h1 : 0 ≤ t1) (h12 : t1 ≤ t2)
    (h2 : t2 ≤ HEMISPHERE_VIEW_THRESHOLD) :
    (boundaryPolygonClipAngle t1 ≤ boundaryPolygonClipAngle t2 ∧
     cartographicElementsClipAngle t1 ≤ cartographicElementsClipAngle t2) ∧
    (cartographicElementsClipAngle HEMISPHERE_VIEW_THRESHOLD = 180 ∧
     ∀ t, HEMISPHERE_VIEW_THRESHOLD < t → cartographicElementsClipAngle t = 180) ∧
    (boundaryPolygonClipAngle HEMISPHERE_VIEW_THRESHOLD = 100 ∧
     ∀ t, HEMISPHERE_VIEW_THRESHOLD < t → boundaryPolygonClipAngle t = 180) := by
  have hh : HEMISPHERE_VIEW_THRESHOLD = (1/2 : ℝ) := by
    norm_num [HEMISPHERE_VIEW_THRESHOLD]
  refine ⟨⟨?_, ?_⟩, ⟨?_, ?_⟩, ⟨?_, ?_⟩⟩
  · rw [boundaryPolygonClipAngle, if_pos (le_trans h12 h2),
      boundaryPolygonClipAngle, if_pos h2]
    linarith
  · rw [cartographicElementsClipAngle, if_pos (le_trans h12 h2),
      cartographicElementsClipAngle, if_pos h2]
    linarith
  · rw [cartographicElementsClipAngle, if_pos le_rfl, hh]
    norm_num
  · intro t ht
    rw [cartographicElementsClipAngle, if_neg (not_le.mpr ht)]
  · rw [boundaryPolygonClipAngle, if_pos le_rfl, hh]
    norm_num
  · intro t ht
    rw [boundaryPolygonClipAngle, if_neg (not_le.mpr ht)]

/-- Witness for the amended C2 statement at t1 = 0, t2 = 1/4. -/
theorem clip_angle_schedules_monotone_and_midpoint_behavior_witness :
    (0 : ℝ) ≤ 0 ∧ (0 : ℝ) ≤ 1/4 ∧ (1/4 : ℝ) ≤ HEMISPHERE_VIEW_THRESHOLD ∧
    ((boundaryPolygonClipAngle 0 ≤ boundaryPolygonClipAngle (1/4) ∧
      cartographicElementsClipAngle 0 ≤ cartographicElementsClipAngle (1/4)) ∧
     (cartographicElementsClipAngle HEMISPHERE_VIEW_THRESHOLD = 180 ∧
      ∀ t, HEMISPHERE_VIEW_THRESHOLD < t → cartographicElementsClipAngle t = 180) ∧
     (boundaryPolygonClipAngle HEMISPHERE_VIEW_THRESHOLD = 100 ∧
      ∀ t, HEMISPHERE_VIEW_THRESHOLD < t → boundaryPolygonClipAngle t = 180)) :=
  ⟨le_rfl, by norm_num, by norm_num [HEMISPHERE_VIEW_THRESHOLD],
    clip_angle_schedules_monotone_and_midpoint_behavior 0 (1/4)
      le_rfl (by norm_num) (by norm_num [HEMISPHERE_VIEW_THRESHOLD])⟩

/-- C3: a toggle request issued while a transition is in progress is a no-op
(the whole engine state, in particular the in-flight target and the data the
blend schedule is computed from, is unchanged), and calling the transition
starter while already transitioning also leaves the state unchanged, so a
transition can only be entered from the idle state. -/
theorem toggle_while_transitioning_is_noop (s : TransitionEngine)
    (h : s.isProjectionTransitioning = true) :
    toggleProjectionType s = s ∧
    ∀ target, animateProjectionTransition s target = s := by
  constructor
  · rw [toggleProjectionType, if_pos (by rw [h])]
  · intro target
    rw [animateProjectionTransition, if_pos (by rw [h])]

/-- Witness for C3: a concrete mid-transition state is left unchanged by a
second toggle request. -/
theorem toggle_while_transitioning_is_noop_witness :
    (TransitionEngine.mk true ProjectionState.orthographic
        (some ProjectionState.mercator) true).isProjectionTransitioning = true ∧
    (toggleProjectionType
        (TransitionEngine.mk true ProjectionState.orthographic
          (some ProjectionState.mercator) true) =
      TransitionEngine.mk true ProjectionState.orthographic
        (some ProjectionState.mercator) true ∧
     ∀ target,
       animateProjectionTransition
          (TransitionEngine.mk true ProjectionState.orthographic
            (some ProjectionState.mercator) true) target =
        TransitionEngine.mk true ProjectionState.orthographic
          (some ProjectionState.mercator) true) :=
  ⟨rfl,
    toggle_while_transitioning_is_noop
      (TransitionEngine.mk true ProjectionState.orthographic
        (some ProjectionState.mercator) true) rfl⟩

/-! ## Theorems for claims C4, C5, C10 -/

/-- C4 amended: for every canvas width w and height h the viewport solver
produces flat-mode scale min w h / (2 pi); a translation horizontally
centered at w / 2 whose y component centers the clipped latitude band
(latitudes -83 to +86 degrees) vertically in the canvas (the projected ys of
the two bound latitudes average to h / 2); and a clip rectangle spanning the
full canvas width whose height is the projected y of latitude -83 minus the
projected y of latitude +86 and whose top edge is the minimum of the canvas
width and the projected y of latitude +86 (the code caps the top edge at the
canvas width; it equals the projected y of +86 only when that value is at
most w). -/
theorem viewport_solver_outputs (w h : ℝ) :
    (calculateMercatorViewportParameters w h).mercatorScale = min w h / (2 * π) ∧
    (calculateMercatorViewportParameters w h).mercatorTranslation.1 = w / 2 ∧
    (mercatorProjectedY (calculateMercatorViewportParameters w h).mercatorScale
        (calculateMercatorViewportParameters w h).mercatorTranslation.2
        MERCATOR_LATITUDE_BOUNDS_MAX +
      mercatorProjectedY (calculateMercatorViewportParameters w h).mercatorScale
        (calculateMercatorViewportParameters w h).mercatorTranslation.2
        MERCATOR_LATITUDE_BOUNDS_MIN) / 2 = h / 2 ∧
    (calculateMercatorViewportParameters w h).mercatorViewportClipping.x = 0 ∧
    (calculateMercatorViewportParameters w h).mercatorViewportClipping.width = w ∧
    (calculateMercatorViewportParameters w h).mercatorViewportClipping.y =
      min w
        (mercatorProjectedY (calculateMercatorViewportParameters w h).mercatorScale
          (calculateMercatorViewportParameters w h).mercatorTranslation.2
          MERCATOR_LATITUDE_BOUNDS_MAX) ∧
    (calculateMercatorViewportParameters w h).mercatorViewportClipping.height =
      mercatorProjectedY (calculateMercatorViewportParameters w h).mercatorScale
          (calculateMercatorViewportParameters w h).mercatorTranslation.2
          MERCATOR_LATITUDE_BOUNDS_MIN -
        mercatorProjectedY (calculateMercatorViewportParameters w h).mercatorScale
          (calculateMercatorViewportParameters w h).mercatorTranslation.2
          MERCATOR_LATITUDE_BOUNDS_MAX := by
  refine ⟨rfl, rfl, ?_, rfl, rfl, rfl, rfl⟩
  simp only [calculateMercatorViewportParameters, mercatorProjectedY]
  ring

/-- C5 amended: after every size-changing resize, the Mercator scale,
translation and clip bounds are re-derived from the new canvas width and
height, and the canvas dimensions are updated; the orthographic scale,
however, is re-derived from the stored initial canvas size (the first size
ever observed, snapshotted on the first call), not from the new current
canvas size. -/
theorem resize_rederives_viewport_parameters (s : CanvasState)
    (newCanvasWidth newCanvasHeight : ℝ)
    (hchange : ¬(s.canvasWidth = newCanvasWidth ∧ s.canvasHeight = newCanvasHeight)) :
    (handleCanvasResize s newCanvasWidth newCanvasHeight).canvasWidth = newCanvasWidth ∧
    (handleCanvasResize s newCanvasWidth newCanvasHeight).canvasHeight = newCanvasHeight ∧
    (handleCanvasResize s newCanvasWidth newCanvasHeight).mercatorViewport =
      some (calculateMercatorViewportParameters newCanvasWidth newCanvasHeight) ∧
    (handleCanvasResize s newCanvasWidth newCanvasHeight).orthographicScale =
      min (if s.initialCanvasWidth = 0 then newCanvasWidth else s.initialCanvasWidth)
          (if s.initialCanvasWidth = 0 then newCanvasHeight else s.initialCanvasHeight)
        / 2 - 10 := by
  classical
  rw [handleCanvasResize]
  by_cases h0 : s.initialCanvasWidth = 0 <;>
    simp only [h0, if_true, if_false, if_pos, if_neg, not_false_iff] <;>
    rw [if_neg hchange] <;>
    simp [h0]

/-- Witness for the amended C5 statement: resizing a fresh state to a
400 by 300 canvas. -/
theorem resize_rederives_viewport_parameters_witness :
    ¬((CanvasState.mk 0 0 0 0 0 none false 1 ProjectionState.orthographic
          false).canvasWidth = 400 ∧
      (CanvasState.mk 0 0 0 0 0 none false 1 ProjectionState.orthographic
          false).canvasHeight = 300) ∧
    ((handleCanvasResize
        (CanvasState.mk 0 0 0 0 0 none false 1 ProjectionState.orthographic false)
        400 300).canvasWidth = 400 ∧
     (handleCanvasResize
        (CanvasState.mk 0 0 0 0 0 none false 1 ProjectionState.orthographic false)
        400 300).canvasHeight = 300 ∧
     (handleCanvasResize
        (CanvasState.mk 0 0 0 0 0 none false 1 ProjectionState.orthographic false)
        400 300).mercatorViewport =
       some (calculateMercatorViewportParameters 400 300) ∧
     (handleCanvasResize
        (CanvasState.mk 0 0 0 0 0 none false 1 ProjectionState.orthographic false)
        400 300).orthographicScale =
       min
        (if (CanvasState.mk 0 0 0 0 0 none false 1 ProjectionState.orthographic
            false).initialCanvasWidth = 0 then (400 : ℝ)
         else (CanvasState.mk 0 0 0 0 0 none false 1 ProjectionState.orthographic
            false).initialCanvasWidth)
        (if (CanvasState.mk 0 0 0 0 0 none false 1 ProjectionState.orthographic
            false).initialCanvasWidth = 0 then (300 : ℝ)
         else (CanvasState.mk 0 0 0 0 0 none false 1 ProjectionState.orthographic
            false).initialCanvasHeight) / 2 - 10) :=
  ⟨by norm_num,
    resize_rederives_viewport_parameters
      (CanvasState.mk 0 0 0 0 0 none false 1 ProjectionState.orthographic false)
      400 300 (by norm_num)⟩

/-- C5 counterexample: resize a fresh state to 800 by 600, then to 1000 by
1000.  The orthographic scale after the second resize is
min 800 600 / 2 - 10 = 290, still derived from the initial canvas size, not
min 1000 1000 / 2 - 10 = 490 as re-derivation from the new current canvas
size would give. -/
theorem resize_orthographic_scale_uses_initial_size :
    (handleCanvasResize
        (handleCanvasResize
          (CanvasState.mk 0 0 0 0 0 none false 1 ProjectionState.orthographic false)
          800 600)
        1000 1000).orthographicScale ≠
      min
        (handleCanvasResize
          (handleCanvasResize
            (CanvasState.mk 0 0 0 0 0 none false 1 ProjectionState.orthographic false)
            800 600)
          1000 1000).canvasWidth
        (handleCanvasResize
          (handleCanvasResize
            (CanvasState.mk 0 0 0 0 0 none false 1 ProjectionState.orthographic false)
            800 600)
          1000 1000).canvasHeight / 2 - 10 := by
  classical
  rw [handleCanvasResize, handleCanvasResize]
  norm_num

/-- C10: every canvas resize that actually changes the canvas dimensions
resets the zoom transform to identity whenever the zoom behavior is
initialized, with no condition on the current projection state or on whether
a transition is in progress — in particular also in globe mode while idle. -/
theorem resize_resets_zoom_transform (s : CanvasState)
    (newCanvasWidth newCanvasHeight : ℝ)
    (hz : s.zoomInitialized = true)
    (hchange : ¬(s.canvasWidth = newCanvasWidth ∧ s.canvasHeight = newCanvasHeight)) :
    (handleCanvasResize s newCanvasWidth newCanvasHeight).currentZoomTransformK = 1 := by
  classical
  rw [handleCanvasResize]
  by_cases h0 : s.initialCanvasWidth = 0 <;>
    simp only [h0, if_true, if_false] <;>
    rw [if_neg hchange] <;>
    simp [hz]

/-- Witness for C10: a globe-mode, non-transitioning state with accumulated
zoom 5 loses that zoom on a size-changing resize. -/
theorem resize_resets_zoom_transform_witness :
    (CanvasState.mk 800 600 800 600 290
        (some (calculateMercatorViewportParameters 800 600)) true 5
        ProjectionState.orthographic false).zoomInitialized = true ∧
    ¬((CanvasState.mk 800 600 800 600 290
          (some (calculateMercatorViewportParameters 800 600)) true 5
          ProjectionState.orthographic false).canvasWidth = 1024 ∧
      (CanvasState.mk 800 600 800 600 290
          (some (calculateMercatorViewportParameters 800 600)) true 5
          ProjectionState.orthographic false).canvasHeight = 768) ∧
    (handleCanvasResize
        (CanvasState.mk 800 600 800 600 290
          (some (calculateMercatorViewportParameters 800 600)) true 5
          ProjectionState.orthographic false)
        1024 768).currentZoomTransformK = 1 :=
  ⟨rfl, by norm_num,
    resize_resets_zoom_transform
      (CanvasState.mk 800 600 800 600 290
        (some (calculateMercatorViewportParameters 800 600)) true 5
        ProjectionState.orthographic false)
      1024 768 rfl (by norm_num)⟩

/-! ## Hit testing (isPointInVisibleArea, lines 352-380) -/

/-- The module-level state read by isPointInVisibleArea. -/
structure HitTestState where
  currentProjectionState : ProjectionState
  isProjectionTransitioning : Bool
  alpha : ℝ
  canvasWidth : ℝ
  canvasHeight : ℝ
  mercatorScale : ℝ
  mercatorViewportClipping : Option ClipRect
  orthographicScale : ℝ
  currentZoomTransformK : ℝ

/-- isPointInVisibleArea (lines 352-380): in the Mercator regime (current
state Mercator, or transitioning with blend above 0.5) the point must lie
inside the viewport clip band vertically and inside the horizontally
centered band of the full map width; otherwise the point must lie within
the zoomed globe radius of the canvas center. -/
def isPointInVisibleArea (s : HitTestState) (x y : ℝ) : Prop :=
  if s.currentProjectionState = ProjectionState.mercator ∨
      (s.isProjectionTransitioning ∧ s.alpha > 0.5) then
    match s.mercatorViewportClipping with
    | none => False
    | some clip =>
      let mapWidth := s.mercatorScale * 2 * π
      let horizontalPadding := (s.canvasWidth - mapWidth) / 2
      (y ≥ clip.y ∧ y ≤ clip.y + clip.height) ∧
      (x ≥ horizontalPadding ∧ x ≤ s.canvasWidth - horizontalPadding)
  else
    let dx := x - s.canvasWidth / 2
    let dy := y - s.canvasHeight / 2
    Real.sqrt (dx * dx + dy * dy) ≤ s.orthographicScale * s.currentZoomTransformK

/-! ## Screen-to-sphere inverse projection (screenToSphere, lines 391-424) -/

/-- JavaScript Math.atan2. -/
noncomputable def atan2 (y x : ℝ) : ℝ :=
  if x > 0 then Real.arctan (y / x)
  else if x < 0 then
    (if y ≥ 0 then Real.arctan (y / x) + π else Real.arctan (y / x) - π)
  else if y > 0 then π / 2
  else if y < 0 then -(π / 2)
  else 0

/-- The module-level state read by screenToSphere. -/
structure SphereViewState where
  canvasWidth : ℝ
  canvasHeight : ℝ
  orthographicScale : ℝ
  currentZoomTransformK : ℝ

open Classical in
/-- screenToSphere (lines 391-424): normalizes the canvas point by the zoomed
orthographic scale; when the normalized point lies outside the unit disk it
returns no result, otherwise the longitude/latitude recovered through the
central angle.  (The unused intermediate rotation values of the source,
which do not feed the returned value, are omitted.) -/
noncomputable def screenToSphere (s : SphereViewState) (x y : ℝ) : Option (ℝ × ℝ) :=
  let centerX := s.canvasWidth / 2
  let centerY := s.canvasHeight / 2
  let currentScale := s.orthographicScale * s.currentZoomTransformK
  let nx := (x - centerX) / currentScale
  let ny := (y - centerY) / currentScale
  let r2 := nx * nx + ny * ny
  if r2 > 1 then none
  else
    let r := Real.sqrt r2
    let c := Real.arcsin r
    let sin_c := Real.sin c
    let cos_c := Real.cos c
    let longitude := atan2 (nx * sin_c) (r * cos_c) * 180 / π
    let latitude :=
      (if r = 0 then Real.arcsin (ny * sin_c / 1)
       else Real.arcsin (ny * sin_c / r)) * 180 / π
    some (longitude, latitude)

/-! ## Pointer handlers (handleMouseMove / handleMouseDown, lines 466-555) -/

/-- The globe-branch rotation update of handleMouseMove (lines 487-502):
drag deltas are turned into rotation deltas through the sensitivity constant
divided by the current scale-to-base-scale ratio; no clamping is applied to
any component. -/
noncomputable def handleDragRotation (rotation : ℝ × ℝ × ℝ)
    (dx dy scale baseOrthographicScale : ℝ) : ℝ × ℝ × ℝ :=
  let k := SENSITIVITY / (scale / baseOrthographicScale)
  (rotation.1 + dx * k, rotation.2.1 - dy * k, rotation.2.2)

/-- The Mercator-branch offset update of handleMouseMove (lines 512-515):
the horizontal pixel delta is subtracted from the offset with no modulo
wrapping. -/
def mercatorDragOffsetUpdate (mercatorOffset dx : ℝ) : ℝ := mercatorOffset - dx

/-- The drag-related state read and written by handleMouseDown. -/
structure PointerState where
  hit : HitTestState
  isDragging : Bool
  dragStart : Option (ℝ × ℝ)
  rotationVelocity : ℝ × ℝ
  inertiaRunning : Bool

open Classical in
/-- handleMouseDown (lines 539-555): a drag starts only when the point is in
the visible area AND the current projection state is orthographic; the new
drag cancels any running inertia and resets the rotation velocity.  In any
other case the state is untouched. -/
noncomputable def handleMouseDown (s : PointerState) (x y : ℝ) : PointerState :=
  if isPointInVisibleArea s.hit x y ∧
      s.hit.currentProjectionState = ProjectionState.orthographic then
    { s with
      isDragging := true
      dragStart := some (x, y)
      inertiaRunning := false
      rotationVelocity := (0, 0) }
  else s

/-! ## Theorems for claims C6, C8, C9 -/

/-- C6: the hit test classifies a canvas point as visible, in globe mode
(orthographic and not transitioning), iff its Euclidean distance from the
canvas center is at most orthographicScale times the zoom factor — an
inclusive rule, so a point exactly on the boundary circle is deterministically
classified as visible — and, in flat (Mercator) mode, iff y lies within the
viewport clip bounds vertically and x lies within the horizontally centered
band of width mercatorScale * 2 * pi. -/
theorem hit_test_characterization (s : HitTestState) (x y : ℝ) :
    (s.currentProjectionState = ProjectionState.orthographic →
      s.isProjectionTransitioning = false →
      (isPointInVisibleArea s x y ↔
        Real.sqrt ((x - s.canvasWidth / 2) * (x - s.canvasWidth / 2) +
            (y - s.canvasHeight / 2) * (y - s.canvasHeight / 2)) ≤
          s.orthographicScale * s.currentZoomTransformK)) ∧
    (∀ clip, s.currentProjectionState = ProjectionState.mercator →
      s.mercatorViewportClipping = some clip →
      (isPointInVisibleArea s x y ↔
        (clip.y ≤ y ∧ y ≤ clip.y + clip.height) ∧
        |x - s.canvasWidth / 2| ≤ s.mercatorScale * 2 * π / 2)) := by
  constructor
  · intro hstate htrans
    rw [isPointInVisibleArea, if_neg]
    simp [hstate, htrans]
  · intro clip hstate hclip
    rw [isPointInVisibleArea, if_pos (Or.inl hstate), hclip]
    constructor
    · rintro ⟨⟨hy1, hy2⟩, hx1, hx2⟩
      refine ⟨⟨hy1, hy2⟩, ?_⟩
      rw [abs_le]
      constructor <;> linarith
    · rintro ⟨⟨hy1, hy2⟩, hx⟩
      rw [abs_le] at hx
      exact ⟨⟨hy1, hy2⟩, by linarith [hx.1], by linarith [hx.2]⟩

/-- Witness for C6: the globe-mode characterization at a concrete idle
orthographic state, and the flat-mode characterization at a concrete
Mercator state with a concrete clip rectangle, each with its hypotheses
discharged. -/
theorem hit_test_characterization_witness :
    (isPointInVisibleArea
        (HitTestState.mk ProjectionState.orthographic false 0 800 600
          (600 / (2 * π)) none 290 1) 403 604 ↔
      Real.sqrt ((403 - (HitTestState.mk ProjectionState.orthographic false 0
            800 600 (600 / (2 * π)) none 290 1).canvasWidth / 2) *
            (403 - (HitTestState.mk ProjectionState.orthographic false 0
            800 600 (600 / (2 * π)) none 290 1).canvasWidth / 2) +
          (604 - (HitTestState.mk ProjectionState.orthographic false 0
            800 600 (600 / (2 * π)) none 290 1).canvasHeight / 2) *
            (604 - (HitTestState.mk ProjectionState.orthographic false 0
            800 600 (600 / (2 * π)) none 290 1).canvasHeight / 2)) ≤
        (HitTestState.mk ProjectionState.orthographic false 0 800 600
          (600 / (2 * π)) none 290 1).orthographicScale *
          (HitTestState.mk ProjectionState.orthographic false 0 800 600
            (600 / (2 * π)) none 290 1).currentZoomTransformK) ∧
    (isPointInVisibleArea
        (HitTestState.mk ProjectionState.mercator false 1 800 600
          (600 / (2 * π)) (some (ClipRect.mk 0 30 800 540)) 290 1) 400 100 ↔
      ((ClipRect.mk 0 30 800 540).y ≤ 100 ∧
        (100 : ℝ) ≤ (ClipRect.mk 0 30 800 540).y +
          (ClipRect.mk (0 : ℝ) 30 800 540).height) ∧
      |(400 : ℝ) - (HitTestState.mk ProjectionState.mercator false 1 800 600
          (600 / (2 * π)) (some (ClipRect.mk 0 30 800 540)) 290 1).canvasWidth / 2| ≤
        (HitTestState.mk ProjectionState.mercator false 1 800 600
          (600 / (2 * π)) (some (ClipRect.mk 0 30 800 540)) 290 1).mercatorScale *
          2 * π / 2) :=
  ⟨(hit_test_characterization
      (HitTestState.mk ProjectionState.orthographic false 0 800 600
        (600 / (2 * π)) none 290 1) 403 604).1 rfl rfl,
   (hit_test_characterization
      (HitTestState.mk ProjectionState.mercator false 1 800 600
        (600 / (2 * π)) (some (ClipRect.mk 0 30 800 540)) 290 1) 400 100).2
      (ClipRect.mk 0 30 800 540) rfl rfl⟩

/-- C8 (code bug): in flat (Mercator) mode a pointer-down never starts a pan
drag — handleMouseDown requires the orthographic state, so the whole pointer
state is left untouched — and the pointer-move offset update applies no
modulo wrapping: updating offset 0 by a horizontal delta of 5 pixels yields
-5, outside [0, full map width). -/
theorem flat_mode_mousedown_never_starts_drag (s : PointerState) (x y : ℝ)
    (hstate : s.hit.currentProjectionState = ProjectionState.mercator) :
    handleMouseDown s x y = s ∧
    (handleMouseDown s x y).isDragging = s.isDragging ∧
    mercatorDragOffsetUpdate 0 5 = -5 := by
  have hne : s.hit.currentProjectionState ≠ ProjectionState.orthographic := by
    rw [hstate]
    intro hcontra
    cases hcontra
  have h : handleMouseDown s x y = s := by
    rw [handleMouseDown, if_neg]
    intro hcontra
    exact hne hcontra.2
  exact ⟨h, by rw [h], by norm_num [mercatorDragOffsetUpdate]⟩

/-- Witness for C8 at a concrete flat-mode pointer state: the pointer-down
lands inside the visible area (the clip band), yet no drag starts. -/
theorem flat_mode_mousedown_never_starts_drag_witness :
    (PointerState.mk
        (HitTestState.mk ProjectionState.mercator false 1 800 600 (600 / (2 * π))
          (some (ClipRect.mk 0 30 800 540)) 290 1)
        false none (0, 0) false).hit.currentProjectionState =
      ProjectionState.mercator ∧
    (handleMouseDown
        (PointerState.mk
          (HitTestState.mk ProjectionState.mercator false 1 800 600 (600 / (2 * π))
            (some (ClipRect.mk 0 30 800 540)) 290 1)
          false none (0, 0) false) 400 300 =
      PointerState.mk
        (HitTestState.mk ProjectionState.mercator false 1 800 600 (600 / (2 * π))
          (some (ClipRect.mk 0 30 800 540)) 290 1)
        false none (0, 0) false ∧
     (handleMouseDown
        (PointerState.mk
          (HitTestState.mk ProjectionState.mercator false 1 800 600 (600 / (2 * π))
            (some (ClipRect.mk 0 30 800 540)) 290 1)
          false none (0, 0) false) 400 300).isDragging =
      (PointerState.mk
        (HitTestState.mk ProjectionState.mercator false 1 800 600 (600 / (2 * π))
          (some (ClipRect.mk 0 30 800 540)) 290 1)
        false none (0, 0) false).isDragging ∧
     mercatorDragOffsetUpdate 0 5 = -5) :=
  ⟨rfl,
    flat_mode_mousedown_never_starts_drag
      (PointerState.mk
        (HitTestState.mk ProjectionState.mercator false 1 800 600 (600 / (2 * π))
          (some (ClipRect.mk 0 30 800 540)) 290 1)
        false none (0, 0) false) 400 300 rfl⟩

/-- C9 counterexample: the drag rotation update does not clamp the latitude
component.  Starting from rotation (0, 89, 0) at base scale (zoom ratio 1),
a vertical drag delta of -200 pixels produces latitude rotation component
89 + 200 * 0.25 = 139, outside [-90, 90]. -/
theorem drag_rotation_latitude_not_clamped :
    (handleDragRotation (0, 89, 0) 0 (-200) 290 290).2.1 = 139 ∧
    ¬((-90 : ℝ) ≤ (handleDragRotation (0, 89, 0) 0 (-200) 290 290).2.1 ∧
      (handleDragRotation (0, 89, 0) 0 (-200) 290 290).2.1 ≤ 90) := by
  have h : (handleDragRotation (0, 89, 0) 0 (-200) 290 290).2.1 = 139 := by
    rw [handleDragRotation]
    norm_num [SENSITIVITY]
  refine ⟨h, ?_⟩
  rw [h]
  norm_num

/-- C9 amended: no operation raises for out-of-range pointer input — the
drag rotation update is the total unclamped affine rule (its latitude
component can leave [-90, 90]), and the inverse projection screenToSphere
returns no result exactly when the normalized point lies outside the unit
disk, rather than a nonsensical value. -/
theorem out_of_range_input_behavior (s : SphereViewState) (x y : ℝ)
    (rotation : ℝ × ℝ × ℝ) (dx dy scale baseScale : ℝ) :
    (screenToSphere s x y = none ↔
      ((x - s.canvasWidth / 2) / (s.orthographicScale * s.currentZoomTransformK)) *
          ((x - s.canvasWidth / 2) / (s.orthographicScale * s.currentZoomTransformK)) +
        ((y - s.canvasHeight / 2) / (s.orthographicScale * s.currentZoomTransformK)) *
          ((y - s.canvasHeight / 2) / (s.orthographicScale * s.currentZoomTransformK)) >
        1) ∧
    handleDragRotation rotation dx dy scale baseScale =
      (rotation.1 + dx * (SENSITIVITY / (scale / baseScale)),
       rotation.2.1 - dy * (SENSITIVITY / (scale / baseScale)),
       rotation.2.2) := by
  constructor
  · rw [screenToSphere]
    by_cases hr :
      ((x - s.canvasWidth / 2) / (s.orthographicScale * s.currentZoomTransformK)) *
          ((x - s.canvasWidth / 2) / (s.orthographicScale * s.currentZoomTransformK)) +
        ((y - s.canvasHeight / 2) / (s.orthographicScale * s.currentZoomTransformK)) *
          ((y - s.canvasHeight / 2) / (s.orthographicScale * s.currentZoomTransformK)) >
        1
    · simp only [hr, if_pos]
    · simp only [hr, if_neg, not_false_iff]
      simp [hr]
  · rfl

/-- Witness for the amended C9 statement at a concrete state, point and drag:
the point (1000, 300) on an 800 by 600 canvas at scale 290 and zoom 1 is
outside the unit disk, so the inverse projection returns none. -/
theorem out_of_range_input_behavior_witness :
    (screenToSphere (SphereViewState.mk 800 600 290 1) 1000 300 = none ↔
      ((1000 - (SphereViewState.mk 800 600 290 1).canvasWidth / 2) /
            ((SphereViewState.mk 800 600 290 1).orthographicScale *
              (SphereViewState.mk 800 600 290 1).currentZoomTransformK)) *
          ((1000 - (SphereViewState.mk 800 600 290 1).canvasWidth / 2) /
            ((SphereViewState.mk 800 600 290 1).orthographicScale *
              (SphereViewState.mk 800 600 290 1).currentZoomTransformK)) +
        ((300 - (SphereViewState.mk 800 600 290 1).canvasHeight / 2) /
            ((SphereViewState.mk 800 600 290 1).orthographicScale *
              (SphereViewState.mk 800 600 290 1).currentZoomTransformK)) *
          ((300 - (SphereViewState.mk 800 600 290 1).canvasHeight / 2) /
            ((SphereViewState.mk 800 600 290 1).orthographicScale *
              (SphereViewState.mk 800 600 290 1).currentZoomTransformK)) >
        1) ∧
    handleDragRotation (10, -20, 0) 50 30 290 290 =
      ((10 : ℝ) + 50 * (SENSITIVITY / (290 / 290)),
       (-20 : ℝ) - 30 * (SENSITIVITY / (290 / 290)),
       (0 : ℝ)) :=
  out_of_range_input_behavior (SphereViewState.mk 800 600 290 1) 1000 300
    (10, -20, 0) 50 30 290 290

/-! ## Inertia (applyInertia, lines 429-464)

The orthographic branch of applyInertia: each loop invocation first tests
the stop condition on the current velocity and, when it fails, adds the
pre-decay velocity to the rotation and then multiplies the velocity by
FRICTION before rescheduling itself. -/

/-- The state touched by the orthographic branch of applyInertia. -/
structure RotationInertiaState where
  rotation : ℝ × ℝ × ℝ
  velocity : ℝ × ℝ

/-- The stop test (line 431): both velocity components are below the floor. -/
def rotationInertiaStopped (s : RotationInertiaState) : Prop :=
  |s.velocity.1| < MIN_VELOCITY ∧ |s.velocity.2| < MIN_VELOCITY

/-- One executed inertia tick (lines 437-443): the pre-decay velocity is
added to the rotation, then the velocity is multiplied by FRICTION. -/
noncomputable def rotationInertiaTick (s : RotationInertiaState) :
    RotationInertiaState :=
  { rotation :=
      (s.rotation.1 + s.velocity.1, s.rotation.2.1 + s.velocity.2, s.rotation.2.2)
    velocity := (s.velocity.1 * FRICTION, s.velocity.2 * FRICTION) }

/-- The state after n executed inertia ticks. -/
noncomputable def rotationInertiaRun (s : RotationInertiaState) :
    ℕ → RotationInertiaState
  | 0 => s
  | n + 1 => rotationInertiaTick (rotationInertiaRun s n)

/-- The number of ticks the self-rescheduling inertia loop executes: the
first tick index at which the stop test succeeds (that invocation tears the
loop down without mutating the state). -/
noncomputable def rotationInertiaTickCount (s : RotationInertiaState) : ℕ :=
  sInf {n | rotationInertiaStopped (rotationInertiaRun s n)}

lemma friction_pos : (0 : ℝ) < FRICTION := by norm_num [FRICTION]

lemma friction_lt_one : FRICTION < (1 : ℝ) := by norm_num [FRICTION]

lemma min_velocity_pos : (0 : ℝ) < MIN_VELOCITY := by norm_num [MIN_VELOCITY]

lemma rotationInertiaRun_velocity (s : RotationInertiaState) (n : ℕ) :
    (rotationInertiaRun s n).velocity =
      (s.velocity.1 * FRICTION ^ n, s.velocity.2 * FRICTION ^ n) := by
  induction n with
  | zero => simp [rotationInertiaRun]
  | succ n ih =>
    rw [rotationInertiaRun, rotationInertiaTick, ih]
    refine Prod.ext ?_ ?_ <;> simp <;> ring

lemma rotationInertiaRun_rotation (s : RotationInertiaState) (n : ℕ) :
    (rotationInertiaRun s n).rotation =
      (s.rotation.1 + ∑ k in Finset.range n, s.velocity.1 * FRICTION ^ k,
       s.rotation.2.1 + ∑ k in Finset.range n, s.velocity.2 * FRICTION ^ k,
       s.rotation.2.2) := by
  induction n with
  | zero => simp [rotationInertiaRun]
  | succ n ih =>
    rw [rotationInertiaRun, rotationInertiaTick, ih, rotationInertiaRun_velocity]
    refine Prod.ext ?_ (Prod.ext ?_ ?_) <;>
      simp [Finset.sum_range_succ] <;> ring

lemma rotationInertiaStopped_run_iff (s : RotationInertiaState) (n : ℕ) :
    rotationInertiaStopped (rotationInertiaRun s n) ↔
      |s.velocity.1| * FRICTION ^ n < MIN_VELOCITY ∧
        |s.velocity.2| * FRICTION ^ n < MIN_VELOCITY := by
  rw [rotationInertiaStopped, rotationInertiaRun_velocity]
  have hF : |FRICTION ^ n| = FRICTION ^ n :=
    abs_of_nonneg (le_of_lt (pow_pos friction_pos n))
  simp [abs_mul, hF]

lemma natInf_eq_of_mem_of_min {S : Set ℕ} {m : ℕ} (hm : m ∈ S)
    (hmin : ∀ k, k < m → k ∉ S) : sInf S = m := by
  have hne : S.Nonempty := ⟨m, hm⟩
  rcases lt_or_eq_of_le (Nat.sInf_le hm) with h | h
  · exact absurd (Nat.sInf_mem hne) (hmin _ h)
  · exact h

lemma decay_lt_floor_iff {a : ℝ} (ha : 0 < a) (n : ℕ) :
    a * FRICTION ^ n < MIN_VELOCITY ↔
      Real.log (MIN_VELOCITY / a) / Real.log FRICTION < (n : ℝ) := by
  have hlF : Real.log FRICTION < 0 := Real.log_neg friction_pos friction_lt_one
  have hfn : (0 : ℝ) < FRICTION ^ n := pow_pos friction_pos n
  rw [← Real.log_lt_log_iff (mul_pos ha hfn) min_velocity_pos,
    Real.log_mul (ne_of_gt ha) (ne_of_gt hfn), Real.log_pow,
    Real.log_div (ne_of_gt min_velocity_pos) (ne_of_gt ha),
    div_lt_iff_of_neg hlF]
  constructor <;> intro h <;> linarith

lemma floor_lt_decay_iff {a : ℝ} (ha : 0 < a) (n : ℕ) :
    MIN_VELOCITY < a * FRICTION ^ n ↔
      (n : ℝ) < Real.log (MIN_VELOCITY / a) / Real.log FRICTION := by
  have hlF : Real.log FRICTION < 0 := Real.log_neg friction_pos friction_lt_one
  have hfn : (0 : ℝ) < FRICTION ^ n := pow_pos friction_pos n
  rw [← Real.log_lt_log_iff min_velocity_pos (mul_pos ha hfn),
    Real.log_mul (ne_of_gt ha) (ne_of_gt hfn), Real.log_pow,
    Real.log_div (ne_of_gt min_velocity_pos) (ne_of_gt ha),
    lt_div_iff_of_neg hlF]
  constructor <;> intro h <;> linarith

/-- C7 amended: for an initial rotation velocity whose first component is
above the floor and whose second component is already below it (the scalar
case the closed-form count describes), the inertia loop applies the
pre-decay velocity to the rotation and then multiplies the velocity by
FRICTION on every executed tick; it terminates exactly at the first tick at
which the velocity magnitude has dropped below the floor (the stop test
holds there and at no earlier tick); when MIN_VELOCITY is not exactly
|v0| * FRICTION ^ m for any m the executed tick count equals
ceil (log (MIN_VELOCITY / |v0|) / log FRICTION); and the accumulated
rotation displacement is the geometric sum of v0 * FRICTION ^ k over the
executed ticks. -/
theorem inertia_decay_characterization (s : RotationInertiaState)
    (hv1 : MIN_VELOCITY < |s.velocity.1|)
    (hv2 : |s.velocity.2| < MIN_VELOCITY)
    (hne : ∀ m : ℕ, |s.velocity.1| * FRICTION ^ m ≠ MIN_VELOCITY) :
    (∀ n, (rotationInertiaRun s (n + 1)).rotation.1 =
        (rotationInertiaRun s n).rotation.1 + (rotationInertiaRun s n).velocity.1 ∧
      (rotationInertiaRun s (n + 1)).velocity.1 =
        (rotationInertiaRun s n).velocity.1 * FRICTION) ∧
    rotationInertiaStopped (rotationInertiaRun s (rotationInertiaTickCount s)) ∧
    (∀ n < rotationInertiaTickCount s,
      ¬rotationInertiaStopped (rotationInertiaRun s n)) ∧
    (rotationInertiaTickCount s : ℤ) =
      Int.ceil (Real.log (MIN_VELOCITY / |s.velocity.1|) / Real.log FRICTION) ∧
    (rotationInertiaRun s (rotationInertiaTickCount s)).rotation.1 =
      s.rotation.1 + ∑ k in Finset.range (rotationInertiaTickCount s),
        s.velocity.1 * FRICTION ^ k := by
  have ha : (0 : ℝ) < |s.velocity.1| := lt_trans min_velocity_pos hv1
  have hmem : ∀ n : ℕ, rotationInertiaStopped (rotationInertiaRun s n) ↔
      Real.log (MIN_VELOCITY / |s.velocity.1|) / Real.log FRICTION < (n : ℝ) := by
    intro n
    rw [rotationInertiaStopped_run_iff, ← decay_lt_floor_iff ha n]
    have h2 : |s.velocity.2| * FRICTION ^ n < MIN_VELOCITY :=
      lt_of_le_of_lt
        (mul_le_of_le_one_right (abs_nonneg _)
          (pow_le_one₀ (le_of_lt friction_pos) (le_of_lt friction_lt_one)))
        hv2
    tauto
  have hSne : {n | rotationInertiaStopped (rotationInertiaRun s n)}.Nonempty := by
    obtain ⟨n0, hn0⟩ :=
      exists_pow_lt_of_lt_one (div_pos min_velocity_pos ha) friction_lt_one
    refine ⟨n0, ?_⟩
    show rotationInertiaStopped (rotationInertiaRun s n0)
    rw [hmem n0, ← decay_lt_floor_iff ha n0]
    calc |s.velocity.1| * FRICTION ^ n0
        < |s.velocity.1| * (MIN_VELOCITY / |s.velocity.1|) := by
          exact (mul_lt_mul_left ha).mpr hn0
      _ = MIN_VELOCITY := by field_simp
  have hMmem : rotationInertiaStopped
      (rotationInertiaRun s (rotationInertiaTickCount s)) :=
    Nat.sInf_mem hSne
  have hMmin : ∀ n < rotationInertiaTickCount s,
      ¬rotationInertiaStopped (rotationInertiaRun s n) := by
    intro n hn
    exact Nat.not_mem_of_lt_sInf hn
  have hM0 : rotationInertiaTickCount s ≠ 0 := by
    intro h0
    have := hMmem
    rw [h0, rotationInertiaStopped_run_iff] at this
    rcases this with ⟨h1, _⟩
    rw [pow_zero, mul_one] at h1
    exact absurd h1 (not_lt.mpr (le_of_lt hv1))
  have hM1 : 1 ≤ rotationInertiaTickCount s := Nat.one_le_iff_ne_zero.mpr hM0
  refine ⟨fun n => ⟨rfl, rfl⟩, hMmem, hMmin, ?_, ?_⟩
  · -- the ceiling formula
    have hxM : Real.log (MIN_VELOCITY / |s.velocity.1|) / Real.log FRICTION <
        (rotationInertiaTickCount s : ℝ) := (hmem _).mp hMmem
    have hprev : ¬Real.log (MIN_VELOCITY / |s.velocity.1|) / Real.log FRICTION <
        ((rotationInertiaTickCount s - 1 : ℕ) : ℝ) := by
      intro h
      exact hMmin _ (Nat.sub_lt (Nat.lt_of_lt_of_le Nat.zero_lt_one hM1)
        Nat.zero_lt_one) ((hmem _).mpr h)
    have hprevlt : ((rotationInertiaTickCount s - 1 : ℕ) : ℝ) <
        Real.log (MIN_VELOCITY / |s.velocity.1|) / Real.log FRICTION := by
      rcases lt_or_eq_of_le (not_lt.mp hprev) with h | h
      · exact h
      · exfalso
        rcases lt_trichotomy
            (|s.velocity.1| * FRICTION ^ (rotationInertiaTickCount s - 1))
            MIN_VELOCITY with hlt | heq | hgt
        · rw [decay_lt_floor_iff ha] at hlt
          linarith
        · exact hne _ heq
        · rw [floor_lt_decay_iff ha] at hgt
          linarith
    have hcast : ((rotationInertiaTickCount s - 1 : ℕ) : ℝ) =
        (rotationInertiaTickCount s : ℝ) - 1 := by
      rw [Nat.cast_sub hM1]
      norm_num
    have hceil_le :
        Int.ceil (Real.log (MIN_VELOCITY / |s.velocity.1|) / Real.log FRICTION) ≤
          (rotationInertiaTickCount s : ℤ) := by
      rw [Int.ceil_le]
      push_cast
      exact le_of_lt hxM
    have hlt_ceil : (rotationInertiaTickCount s : ℤ) - 1 <
        Int.ceil (Real.log (MIN_VELOCITY / |s.velocity.1|) / Real.log FRICTION) := by
      rw [Int.lt_ceil]
      push_cast
      rw [show (rotationInertiaTickCount s : ℝ) - 1 =
        ((rotationInertiaTickCount s - 1 : ℕ) : ℝ) from hcast.symm]
      exact hprevlt
    omega
  · rw [rotationInertiaRun_rotation]

/-- The concrete inertia state used by the witness: rotation velocity
(0.02, 0), twice the floor, with the code constants FRICTION = 0.95 and
MIN_VELOCITY = 0.01. -/
noncomputable def inertiaDemoState : RotationInertiaState :=
  { rotation := (10, -20, 0), velocity := (1 / 50, 0) }

lemma inertiaDemoState_never_exact :
    ∀ m : ℕ, |inertiaDemoState.velocity.1| * FRICTION ^ m ≠ MIN_VELOCITY := by
  intro m h
  have hv : |inertiaDemoState.velocity.1| = (1 / 50 : ℝ) := by
    rw [inertiaDemoState]
    norm_num
  rw [hv, FRICTION, MIN_VELOCITY] at h
  have h2 : ((19 : ℝ) / 20) ^ m = 1 / 2 := by
    have : (0.95 : ℝ) = 19 / 20 := by norm_num
    rw [this] at h
    nlinarith [h]
  have h3 : (2 : ℝ) * 19 ^ m = 20 ^ m := by
    rw [div_pow] at h2
    have h20 : ((20 : ℝ) ^ m) ≠ 0 := by positivity
    field_simp at h2
    linarith
  have h4 : 2 * 19 ^ m = 20 ^ m := by exact_mod_cast h3
  rcases m with _ | k
  · norm_num at h4
  · have hdvd : (19 : ℕ) ∣ 20 ^ (k + 1) := by
      rw [← h4]
      exact ⟨2 * 19 ^ k, by ring⟩
    have : (19 : ℕ) ∣ 20 :=
      Nat.Prime.dvd_of_dvd_pow (by norm_num) hdvd
    norm_num at this

/-- Witness for the amended C7 statement at the concrete initial velocity
(0.02, 0). -/
theorem inertia_decay_characterization_witness :
    MIN_VELOCITY < |inertiaDemoState.velocity.1| ∧
    |inertiaDemoState.velocity.2| < MIN_VELOCITY ∧
    (∀ m : ℕ, |inertiaDemoState.velocity.1| * FRICTION ^ m ≠ MIN_VELOCITY) ∧
    ((∀ n, (rotationInertiaRun inertiaDemoState (n + 1)).rotation.1 =
        (rotationInertiaRun inertiaDemoState n).rotation.1 +
          (rotationInertiaRun inertiaDemoState n).velocity.1 ∧
      (rotationInertiaRun inertiaDemoState (n + 1)).velocity.1 =
        (rotationInertiaRun inertiaDemoState n).velocity.1 * FRICTION) ∧
    rotationInertiaStopped
      (rotationInertiaRun inertiaDemoState
        (rotationInertiaTickCount inertiaDemoState)) ∧
    (∀ n < rotationInertiaTickCount inertiaDemoState,
      ¬rotationInertiaStopped (rotationInertiaRun inertiaDemoState n)) ∧
    (rotationInertiaTickCount inertiaDemoState : ℤ) =
      Int.ceil (Real.log (MIN_VELOCITY / |inertiaDemoState.velocity.1|) /
        Real.log FRICTION) ∧
    (rotationInertiaRun inertiaDemoState
        (rotationInertiaTickCount inertiaDemoState)).rotation.1 =
      inertiaDemoState.rotation.1 +
        ∑ k in Finset.range (rotationInertiaTickCount inertiaDemoState),
          inertiaDemoState.velocity.1 * FRICTION ^ k) :=
  ⟨by rw [inertiaDemoState, MIN_VELOCITY]; norm_num [abs_of_pos],
   by rw [inertiaDemoState, MIN_VELOCITY]; norm_num,
   inertiaDemoState_never_exact,
   inertia_decay_characterization inertiaDemoState
     (by rw [inertiaDemoState, MIN_VELOCITY]; norm_num [abs_of_pos])
     (by rw [inertiaDemoState, MIN_VELOCITY]; norm_num)
     inertiaDemoState_never_exact⟩

/-- The boundary initial velocity at which the closed-form tick count fails:
v0 = 0.01 * (20/19)^5, for which v0 * FRICTION ^ 5 = MIN_VELOCITY exactly. -/
noncomputable def inertiaEdgeState : RotationInertiaState :=
  { rotation := (0, 0, 0), velocity := (1 / 100 * (20 / 19) ^ 5, 0) }

/-- C7 counterexample: at the initial velocity 0.01 * (20/19)^5 the loop
executes 6 ticks (at tick 5 the velocity equals the floor exactly, which
does not stop the strict test), while the claimed closed form
ceil (log (MIN_VELOCITY / |v0|) / log FRICTION) evaluates to 5. -/
theorem inertia_tick_count_formula_fails_at_exact_power :
    rotationInertiaTickCount inertiaEdgeState = 6 ∧
    Int.ceil (Real.log (MIN_VELOCITY / |inertiaEdgeState.velocity.1|) /
        Real.log FRICTION) = 5 ∧
    (rotationInertiaTickCount inertiaEdgeState : ℤ) ≠
      Int.ceil (Real.log (MIN_VELOCITY / |inertiaEdgeState.velocity.1|) /
        Real.log FRICTION) := by
  have hv : |inertiaEdgeState.velocity.1| = (1 / 100 * (20 / 19) ^ 5 : ℝ) := by
    rw [inertiaEdgeState]
    norm_num
  have hcount : rotationInertiaTickCount inertiaEdgeState = 6 := by
    rw [rotationInertiaTickCount]
    apply natInf_eq_of_mem_of_min
    · show rotationInertiaStopped (rotationInertiaRun inertiaEdgeState 6)
      rw [rotationInertiaStopped_run_iff, hv]
      constructor
      · rw [FRICTION, MIN_VELOCITY]
        norm_num
      · rw [inertiaEdgeState, MIN_VELOCITY]
        norm_num [pow_pos]
    · intro k hk hkmem
      rw [Set.mem_setOf_eq, rotationInertiaStopped_run_iff, hv] at hkmem
      rcases hkmem with ⟨h1, _⟩
      rw [FRICTION, MIN_VELOCITY] at h1
      interval_cases k <;> norm_num at h1
  have hratio : MIN_VELOCITY / |inertiaEdgeState.velocity.1| = ((19 : ℝ) / 20) ^ 5 := by
    rw [hv, MIN_VELOCITY]
    rw [div_pow, div_pow]
    field_simp
    ring
  have hlogne : Real.log ((19 : ℝ) / 20) ≠ 0 := by
    rw [Ne, Real.log_eq_zero]
    push_neg
    norm_num
  have hceil : Int.ceil (Real.log (MIN_VELOCITY / |inertiaEdgeState.velocity.1|) /
      Real.log FRICTION) = 5 := by
    rw [hratio, Real.log_pow]
    have hF : FRICTION = ((19 : ℝ) / 20) := by rw [FRICTION]; norm_num
    rw [hF, mul_div_assoc, div_self hlogne, mul_one]
    rw [show ((5 : ℕ) : ℝ) = ((5 : ℤ) : ℝ) by norm_num, Int.ceil_intCast]
  refine ⟨hcount, hceil, ?_⟩
  rw [hcount, hceil]
  decide

/-! ## Numeric bounds for the C4 counterexample -/

lemma sin_pi_div_ninety_gt : (0.0348 : ℝ) < Real.sin (π / 90) := by
  have hx1 : (0 : ℝ) < π / 90 := by positivity
  have hx2 : π / 90 ≤ 1 := by nlinarith [Real.pi_le_four]
  have hcube := Real.sin_gt_sub_cube hx1 hx2
  have ha : (3.14 : ℝ) / 90 < π / 90 := by linarith [Real.pi_gt_d2]
  have hb : π / 90 < 3.15 / 90 := by linarith [Real.pi_lt_d2]
  have hc : (π / 90) ^ 3 < (3.15 / 90 : ℝ) ^ 3 :=
    pow_lt_pow_left hb (le_of_lt hx1) (by norm_num)
  have hnum : (0.0348 : ℝ) < 3.14 / 90 - (3.15 / 90) ^ 3 / 4 := by norm_num
  linarith

lemma sin_seven_pi_div_fg_gt : (0.06 : ℝ) < Real.sin (7 * π / 360) := by
  have hx1 : (0 : ℝ) < 7 * π / 360 := by positivity
  have hx2 : 7 * π / 360 ≤ 1 := by nlinarith [Real.pi_le_four]
  have hcube := Real.sin_gt_sub_cube hx1 hx2
  have ha : (7 * 3.14 : ℝ) / 360 < 7 * π / 360 := by linarith [Real.pi_gt_d2]
  have hb : 7 * π / 360 < 7 * 3.15 / 360 := by linarith [Real.pi_lt_d2]
  have hc : (7 * π / 360) ^ 3 < (7 * 3.15 / 360 : ℝ) ^ 3 :=
    pow_lt_pow_left hb (le_of_lt hx1) (by norm_num)
  have hnum : (0.06 : ℝ) < 7 * 3.14 / 360 - (7 * 3.15 / 360) ^ 3 / 4 := by norm_num
  linarith

lemma mercatorRawY_north_bound : mercatorRawY (degToRad MERCATOR_LATITUDE_BOUNDS_MAX) < 28 := by
  have harg : π / 4 + degToRad MERCATOR_LATITUDE_BOUNDS_MAX / 2 = 22 * π / 45 := by
    rw [degToRad, MERCATOR_LATITUDE_BOUNDS_MAX]
    ring
  have hcos : Real.cos (22 * π / 45) = Real.sin (π / 90) := by
    rw [show (22 : ℝ) * π / 45 = π / 2 - π / 90 by ring, Real.cos_pi_div_two_sub]
  have hcos_pos : (0 : ℝ) < Real.cos (22 * π / 45) := by
    rw [hcos]
    linarith [sin_pi_div_ninety_gt]
  have htan_pos : (0 : ℝ) < Real.tan (22 * π / 45) := by
    apply Real.tan_pos_of_pos_of_lt_pi_div_two
    · positivity
    · nlinarith [Real.pi_pos]
  have htan_lt : Real.tan (22 * π / 45) < 29 := by
    rw [Real.tan_eq_sin_div_cos, div_lt_iff hcos_pos, hcos]
    nlinarith [Real.sin_le_one (22 * π / 45), sin_pi_div_ninety_gt]
  rw [mercatorRawY, harg]
  have hlog := Real.log_le_sub_one_of_pos htan_pos
  linarith

lemma mercatorRawY_south_bound :
    -mercatorRawY (degToRad MERCATOR_LATITUDE_BOUNDS_MIN) < 16 := by
  have harg : π / 4 + degToRad MERCATOR_LATITUDE_BOUNDS_MIN / 2 = 7 * π / 360 := by
    rw [degToRad, MERCATOR_LATITUDE_BOUNDS_MIN]
    ring
  have hsin_pos : (0 : ℝ) < Real.sin (7 * π / 360) := by
    linarith [sin_seven_pi_div_fg_gt]
  have hcos_pos : (0 : ℝ) < Real.cos (7 * π / 360) := by
    apply Real.cos_pos_of_mem_Ioo
    constructor
    · nlinarith [Real.pi_pos]
    · nlinarith [Real.pi_pos]
  have htan_pos : (0 : ℝ) < Real.tan (7 * π / 360) := by
    apply Real.tan_pos_of_pos_of_lt_pi_div_two
    · positivity
    · nlinarith [Real.pi_pos]
  have hinv_lt : (Real.tan (7 * π / 360))⁻¹ < 17 := by
    rw [Real.tan_eq_sin_div_cos, inv_div, div_lt_iff hsin_pos]
    nlinarith [Real.cos_le_one (7 * π / 360), sin_seven_pi_div_fg_gt]
  rw [mercatorRawY, harg, ← Real.log_inv]
  have hlog := Real.log_le_sub_one_of_pos (inv_pos.mpr htan_pos)
  linarith

lemma min_ne_of_lt {x y : ℝ} (h : x < y) : min x y ≠ y := by
  rw [min_eq_left (le_of_lt h)]
  exact ne_of_lt h

/-- C4 counterexample: on a 10 by 100000 canvas the clip rectangle's top
edge produced by the viewport solver is not the projected y of latitude +86
degrees — the code caps the top edge at the canvas width
(Math.min(canvasWidth, ...)), and here the projected y of +86 (about 49963)
exceeds the canvas width 10, so the stored top edge is 10. -/
theorem viewport_clip_top_not_northern_boundary :
    (calculateMercatorViewportParameters 10 100000).mercatorViewportClipping.y ≠
      mercatorProjectedY
        (calculateMercatorViewportParameters 10 100000).mercatorScale
        (calculateMercatorViewportParameters 10 100000).mercatorTranslation.2
        MERCATOR_LATITUDE_BOUNDS_MAX := by
  have h10 : min (10 : ℝ) 100000 = 10 := min_eq_left (by norm_num)
  simp only [calculateMercatorViewportParameters, mercatorProjectedY, h10]
  apply min_ne_of_lt
  have hπ3 := Real.pi_gt_three
  have h2π : (0 : ℝ) < 2 * π := by positivity
  have hkpos : (0 : ℝ) < 10 / (2 * π) := by positivity
  have hk3 : (10 : ℝ) / (2 * π) ≤ 5 / 3 := by
    rw [div_le_iff h2π]
    nlinarith
  have h44 : mercatorRawY (degToRad MERCATOR_LATITUDE_BOUNDS_MAX) -
      mercatorRawY (degToRad MERCATOR_LATITUDE_BOUNDS_MIN) < 44 := by
    have := mercatorRawY_north_bound
    have := mercatorRawY_south_bound
    linarith
  have hprod : 10 / (2 * π) *
      (mercatorRawY (degToRad MERCATOR_LATITUDE_BOUNDS_MAX) -
        mercatorRawY (degToRad MERCATOR_LATITUDE_BOUNDS_MIN)) < 74 := by
    nlinarith [mul_pos hkpos
      (show (0 : ℝ) < 44 -
        (mercatorRawY (degToRad MERCATOR_LATITUDE_BOUNDS_MAX) -
          mercatorRawY (degToRad MERCATOR_LATITUDE_BOUNDS_MIN)) by linarith)]
  linarith [hprod]

end GeodesicMapper
